import Mathlib

/-!
Shallow embedding of the V6 bug-dashboard core (src/v6_bug_dashboard.py):
the dataset loader (`load_data`), the sidebar filter chain (`filtered_df`),
the categorical aggregations (`value_counts` / `type_counts` /
`status_counts` / `assignee_counts`), and the KPI block
(`normalize_status`, open/closed counts, `created_recent`).

Rows of the pandas DataFrame are modelled as a `Row` record; a missing cell
(NaN/NaT) is `none`.  Timestamps are integers (seconds); `pd.Timestamp.normalize`
is truncation to a multiple of 86400.  pandas `Series.isin` on a NaN cell is
`false`, comparisons against NaT are `false`, and `value_counts()` drops NaN by
default — these library behaviours are reflected in `optMem`, `datePass` and
`value_counts` below.
-/

/-- One issue row after loading: date columns parsed (or `none`), all other
recognised columns kept verbatim.  `none` models a NaN/NaT cell. -/
structure Row where
  issueKey : String
  summary : String
  issueType : Option String
  status : Option String
  priority : Option String
  assignee : Option String
  created : Option Int
  updated : Option Int
  resolved : Option Int
deriving Repr, DecidableEq

/-- A loaded DataFrame: the header (column names) plus the ordered rows. -/
structure Dataset where
  cols : List String
  rows : List Row
deriving Repr, DecidableEq

/-- One raw CSV row before date parsing: date cells are still text
(`none` models an empty/NaN cell). -/
structure RawRow where
  issueKey : String
  summary : String
  issueType : Option String
  status : Option String
  priority : Option String
  assignee : Option String
  created : Option String
  updated : Option String
  resolved : Option String
deriving Repr, DecidableEq

/-- A raw CSV table: header plus raw rows (the output of `pd.read_csv`). -/
structure RawTable where
  cols : List String
  rows : List RawRow
deriving Repr, DecidableEq

/-- The sidebar filter state: the four multiselect selections and the
optional date range (inclusive endpoints). -/
structure Criteria where
  selectedIssueTypes : List String
  selectedStatuses : List String
  selectedPriorities : List String
  selectedAssignees : List String
  dateRange : Option (Int × Int)
deriving Repr, DecidableEq

/-- `ch.isDigit` guarded decimal digit value. -/
def digitVal (ch : Char) : Option Nat :=
  if ch.isDigit then some (ch.toNat - 48) else none

/-- Model of `pd.to_datetime(_, errors="coerce")` on a single cell, restricted
to ISO `YYYY-MM-DD` text: a well-formed date is mapped to a timestamp (an
order-preserving integer encoding, in seconds), anything else to `none`
(NaT).  The library call is total and never raises; this model is total by
construction. -/
def parseDate (s : String) : Option Int :=
  match s.toList with
  | [y1, y2, y3, y4, '-', m1, m2, '-', d1, d2] =>
    match digitVal y1, digitVal y2, digitVal y3, digitVal y4,
          digitVal m1, digitVal m2, digitVal d1, digitVal d2 with
    | some a, some b, some c, some d, some e, some f, some g, some h =>
      let y := ((a * 10 + b) * 10 + c) * 10 + d
      let m := e * 10 + f
      let day := g * 10 + h
      if 1 ≤ m ∧ m ≤ 12 ∧ 1 ≤ day ∧ day ≤ 31 then
        some (((((y * 12 + (m - 1)) * 31 + (day - 1)) : Nat) : Int) * 86400)
      else none
    | _, _, _, _, _, _, _, _ => none
  | _ => none

/-- Date-parsing of one raw row, per `load_data`:
`for col in ["Created", "Updated", "Resolved"]: if col in df.columns:
df[col] = pd.to_datetime(df[col], errors="coerce")`.  All other fields pass
through verbatim. -/
def loadRow (cols : List String) (rr : RawRow) : Row :=
  { issueKey := rr.issueKey
    summary := rr.summary
    issueType := rr.issueType
    status := rr.status
    priority := rr.priority
    assignee := rr.assignee
    created := if cols.contains "Created" then rr.created.bind parseDate else none
    updated := if cols.contains "Updated" then rr.updated.bind parseDate else none
    resolved := if cols.contains "Resolved" then rr.resolved.bind parseDate else none }

/-- `load_data`: read the CSV and coerce the three candidate date columns.
Never fails; every raw row yields exactly one loaded row. -/
def load_data (raw : RawTable) : Dataset :=
  { cols := raw.cols, rows := raw.rows.map (loadRow raw.cols) }

/-- `normalize_status`: `series.fillna("").astype(str).str.strip().str.lower()`. -/
def normalize_status (s : Option String) : String :=
  ((s.getD "").trim).toLower

/-- `required_cols = ["Summary", "Issue key", "Issue Type", "Status"]`. -/
def required_cols : List String := ["Summary", "Issue key", "Issue Type", "Status"]

/-- `missing = [c for c in required_cols if c not in df.columns]`. -/
def missingCols (cols : List String) : List String :=
  required_cols.filter (fun col => !(cols.contains col))

/-- pandas `Series.isin(allowed)` on one cell: a NaN cell is never a member. -/
def optMem (v : Option String) (allowed : List String) : Bool :=
  match v with
  | none => false
  | some s => allowed.contains s

/-- The sidebar option list for Priority:
`sorted(df["Priority"].dropna().unique().tolist()) if "Priority" in df.columns
else []`.  (`sorted` is omitted: only membership / non-emptiness of the option
list feeds the filter logic.) -/
def priorityOptions (df : Dataset) : List String :=
  if df.cols.contains "Priority" then (df.rows.filterMap Row.priority).dedup else []

/-- The sidebar option list for Assignee, analogous to `priorityOptions`. -/
def assigneeOptions (df : Dataset) : List String :=
  if df.cols.contains "Assignee" then (df.rows.filterMap Row.assignee).dedup else []

/-- Which column the date filter uses:
`for cand in ["Created", "Updated"]: if cand in df.columns: date_col = cand`. -/
inductive DateColumn
  | created
  | updated
deriving Repr, DecidableEq

/-- The chosen date column, `Created` preferred over `Updated`. -/
def dateCol (df : Dataset) : Option DateColumn :=
  if df.cols.contains "Created" then some DateColumn.created
  else if df.cols.contains "Updated" then some DateColumn.updated
  else none

/-- Project the chosen date column out of a row. -/
def getDate : DateColumn → Row → Option Int
  | DateColumn.created, r => r.created
  | DateColumn.updated, r => r.updated

/-- The date-range mask on one cell:
`(filtered_df[date_col] >= start) & (filtered_df[date_col] <= end)`;
a NaT cell compares `false` on both sides. -/
def datePass (d : Option Int) (s e : Int) : Bool :=
  match d with
  | none => false
  | some t => decide (s ≤ t) && decide (t ≤ e)

/-- `if selected_issue_types: filtered_df = filtered_df[... .isin(...)]`. -/
def stageIssueType (c : Criteria) (l : List Row) : List Row :=
  if c.selectedIssueTypes.isEmpty then l
  else l.filter (fun r => optMem r.issueType c.selectedIssueTypes)

/-- `if selected_statuses: filtered_df = filtered_df[... .isin(...)]`. -/
def stageStatus (c : Criteria) (l : List Row) : List Row :=
  if c.selectedStatuses.isEmpty then l
  else l.filter (fun r => optMem r.status c.selectedStatuses)

/-- `if priorities and selected_priorities: ...` — the stage runs only when the
option list and the selection are both non-empty. -/
def stagePriority (df : Dataset) (c : Criteria) (l : List Row) : List Row :=
  if (priorityOptions df).isEmpty || c.selectedPriorities.isEmpty then l
  else l.filter (fun r => optMem r.priority c.selectedPriorities)

/-- `if assignees and selected_assignees: ...`. -/
def stageAssignee (df : Dataset) (c : Criteria) (l : List Row) : List Row :=
  if (assigneeOptions df).isEmpty || c.selectedAssignees.isEmpty then l
  else l.filter (fun r => optMem r.assignee c.selectedAssignees)

/-- `if date_col and date_range: filtered_df = filtered_df[mask]`. -/
def stageDate (df : Dataset) (c : Criteria) (l : List Row) : List Row :=
  match dateCol df, c.dateRange with
  | some dc, some se => l.filter (fun r => datePass (getDate dc r) se.1 se.2)
  | _, _ => l

/-- `filtered_df`: the five filter stages applied in source order to a copy of
the loaded frame. -/
def filtered_df (df : Dataset) (c : Criteria) : List Row :=
  stageDate df c (stageAssignee df c (stagePriority df c
    (stageStatus c (stageIssueType c df.rows))))

/-- The combined per-row predicate: the conjunction of the enabled per-field
constraints, in stage order. -/
def rowPasses (df : Dataset) (c : Criteria) (r : Row) : Bool :=
  (c.selectedIssueTypes.isEmpty || optMem r.issueType c.selectedIssueTypes) &&
  (c.selectedStatuses.isEmpty || optMem r.status c.selectedStatuses) &&
  (((priorityOptions df).isEmpty || c.selectedPriorities.isEmpty) ||
    optMem r.priority c.selectedPriorities) &&
  (((assigneeOptions df).isEmpty || c.selectedAssignees.isEmpty) ||
    optMem r.assignee c.selectedAssignees) &&
  (match dateCol df, c.dateRange with
   | some dc, some se => datePass (getDate dc r) se.1 se.2
   | _, _ => true)


/-- Insert one `(value, count)` entry into a list kept sorted by count
descending. -/
def insertByCount (x : String × Nat) : List (String × Nat) → List (String × Nat)
  | [] => [x]
  | y :: ys => if y.2 ≤ x.2 then x :: y :: ys else y :: insertByCount x ys

/-- Sort `(value, count)` entries by count descending (the output order of
pandas `value_counts`). -/
def sortByCountDesc : List (String × Nat) → List (String × Nat)
  | [] => []
  | x :: xs => insertByCount x (sortByCountDesc xs)

/-- pandas `Series.value_counts()`: one `(value, count)` entry per distinct
non-null value, sorted by count descending (NaN cells are dropped by the
library default `dropna=True`). -/
def value_counts (vals : List (Option String)) : List (String × Nat) :=
  let nonNull := vals.filterMap id
  sortByCountDesc (nonNull.dedup.map (fun v => (v, nonNull.count v)))

/-- `type_counts`: `filtered_df["Issue Type"].value_counts()`. -/
def type_counts (rows : List Row) : List (String × Nat) :=
  value_counts (rows.map Row.issueType)

/-- `status_counts`: `filtered_df["Status"].value_counts()`. -/
def status_counts (rows : List Row) : List (String × Nat) :=
  value_counts (rows.map Row.status)

/-- `assignee_counts`: `filtered_df["Assignee"].value_counts().head(top_n)`. -/
def assignee_counts (rows : List Row) (topN : Nat) : List (String × Nat) :=
  (value_counts (rows.map Row.assignee)).take topN

/-- The closed-status set of the KPI block:
`statuses_lower.isin(["closed", "done", "resolved"])`. -/
def closedStatuses : List String := ["closed", "done", "resolved"]

/-- `is_closed` for one row: normalized status is in `closedStatuses`. -/
def is_closed (r : Row) : Bool :=
  closedStatuses.contains (normalize_status r.status)

/-- Seconds per day, the granularity of `pd.Timestamp.normalize`. -/
def secondsPerDay : Int := 86400

/-- `pd.Timestamp.today().normalize()`: the evaluation instant truncated to
the start of its day. -/
def normalizeTs (t : Int) : Int := t - t % secondsPerDay

/-- The mask of the recent-window KPI on one cell:
`(df["Created"] >= last_30) & (df["Created"] <= today)` with
`today = pd.Timestamp.today().normalize()` and
`last_30 = today - pd.Timedelta(days=30)`; a NaT cell compares `false`. -/
def inRecentWindow (now : Int) (d : Option Int) : Bool :=
  match d with
  | none => false
  | some t =>
      decide (normalizeTs now - 30 * secondsPerDay ≤ t) &&
      decide (t ≤ normalizeTs now)

/-- `created_recent`: the "Issues Created (Last 30 Days)" KPI, computed on the
unfiltered frame; `none` models the `np.nan` → "N/A" branch taken when the
`Created` column is absent. -/
def created_recent (df : Dataset) (now : Int) : Option Nat :=
  if df.cols.contains "Created" then
    some ((df.rows.filter (fun r => inRecentWindow now r.created)).length)
  else none

/-- The recent-window KPI as claim C8 words it: a trailing 30-day window that
ends at the evaluation instant itself (anchor = now, not the start of the
day).  This definition follows the claim text, for comparison with
`created_recent`. -/
def created_recent_claim (df : Dataset) (now : Int) : Option Nat :=
  if df.cols.contains "Created" then
    some ((df.rows.filter (fun r =>
      match r.created with
      | none => false
      | some t => decide (now - 30 * secondsPerDay ≤ t) && decide (t ≤ now))).length)
  else none

/-- `resolved_recent`, the analogous KPI over the `Resolved` column. -/
def resolved_recent (df : Dataset) (now : Int) : Option Nat :=
  if df.cols.contains "Resolved" then
    some ((df.rows.filter (fun r => inRecentWindow now r.resolved)).length)
  else none

/-- The quantities one dashboard render computes: the filtered rows, the
categorical charts (from the filtered frame) and the KPI block (from the
unfiltered frame). -/
structure Output where
  filtered : List Row
  typeCounts : List (String × Nat)
  statusCounts : List (String × Nat)
  kpiTotal : Nat
  kpiOpen : Nat
  kpiClosed : Nat
  kpiCreatedRecent : Option Nat
deriving Repr, DecidableEq

/-- One dashboard render on a loaded frame: charts are computed from
`filtered_df`, the four KPIs from the unfiltered `df`. -/
def render (df : Dataset) (c : Criteria) (now : Int) : Output :=
  let filtered := filtered_df df c
  { filtered := filtered
    typeCounts := type_counts filtered
    statusCounts := status_counts filtered
    kpiTotal := df.rows.length
    kpiOpen := df.rows.countP (fun r => !(is_closed r))
    kpiClosed := df.rows.countP (fun r => is_closed r)
    kpiCreatedRecent := created_recent df now }

/-- The dashboard pipeline: load, check `required_cols`, and render; a missing
required column reports the list of missing names and blocks every downstream
computation for that dataset. -/
def runPipeline (raw : RawTable) (c : Criteria) (now : Int) :
    Except (List String) Output :=
  let df := load_data raw
  let missing := missingCols df.cols
  if missing.isEmpty then Except.ok (render df c now) else Except.error missing

/-- `filtered_df` with the issue-type stage removed (constraint absent). -/
def filteredNoIssueType (df : Dataset) (c : Criteria) : List Row :=
  stageDate df c (stageAssignee df c (stagePriority df c (stageStatus c df.rows)))

/-- `filtered_df` with the status stage removed (constraint absent). -/
def filteredNoStatus (df : Dataset) (c : Criteria) : List Row :=
  stageDate df c (stageAssignee df c (stagePriority df c (stageIssueType c df.rows)))

/-- `filtered_df` with the priority stage removed (constraint absent). -/
def filteredNoPriority (df : Dataset) (c : Criteria) : List Row :=
  stageDate df c (stageAssignee df c (stageStatus c (stageIssueType c df.rows)))

/-- `filtered_df` with the assignee stage removed (constraint absent). -/
def filteredNoAssignee (df : Dataset) (c : Criteria) : List Row :=
  stageDate df c (stagePriority df c (stageStatus c (stageIssueType c df.rows)))

/-- `filtered_df` with the date stage removed (constraint absent). -/
def filteredNoDate (df : Dataset) (c : Criteria) : List Row :=
  stageAssignee df c (stagePriority df c (stageStatus c (stageIssueType c df.rows)))

/- Helper lemmas (shared infrastructure, not claim theorems). -/

theorem stageIssueType_eq_filter (c : Criteria) (l : List Row) :
    stageIssueType c l = l.filter (fun r =>
      c.selectedIssueTypes.isEmpty || optMem r.issueType c.selectedIssueTypes) := by
  by_cases h : c.selectedIssueTypes.isEmpty <;>
    simp [stageIssueType, h, List.filter_true]

theorem stageStatus_eq_filter (c : Criteria) (l : List Row) :
    stageStatus c l = l.filter (fun r =>
      c.selectedStatuses.isEmpty || optMem r.status c.selectedStatuses) := by
  by_cases h : c.selectedStatuses.isEmpty <;>
    simp [stageStatus, h, List.filter_true]

theorem stagePriority_eq_filter (df : Dataset) (c : Criteria) (l : List Row) :
    stagePriority df c l = l.filter (fun r =>
      ((priorityOptions df).isEmpty || c.selectedPriorities.isEmpty) ||
        optMem r.priority c.selectedPriorities) := by
  by_cases h : (priorityOptions df).isEmpty || c.selectedPriorities.isEmpty <;>
    simp [stagePriority, h, List.filter_true]

theorem stageAssignee_eq_filter (df : Dataset) (c : Criteria) (l : List Row) :
    stageAssignee df c l = l.filter (fun r =>
      ((assigneeOptions df).isEmpty || c.selectedAssignees.isEmpty) ||
        optMem r.assignee c.selectedAssignees) := by
  by_cases h : (assigneeOptions df).isEmpty || c.selectedAssignees.isEmpty <;>
    simp [stageAssignee, h, List.filter_true]

theorem stageDate_eq_filter (df : Dataset) (c : Criteria) (l : List Row) :
    stageDate df c l = l.filter (fun r =>
      match dateCol df, c.dateRange with
      | some dc, some se => datePass (getDate dc r) se.1 se.2
      | _, _ => true) := by
  cases hdc : dateCol df <;> cases hdr : c.dateRange <;>
    simp [stageDate, hdc, hdr, List.filter_true]

theorem bool_reassoc (a b c d e : Bool) :
    (e && (d && (c && (b && a)))) = (a && b && c && d && e) := by
  cases a <;> cases b <;> cases c <;> cases d <;> cases e <;> rfl

theorem filtered_df_eq_filter (df : Dataset) (c : Criteria) :
    filtered_df df c = df.rows.filter (rowPasses df c) := by
  rw [filtered_df, stageIssueType_eq_filter, stageStatus_eq_filter,
    stagePriority_eq_filter, stageAssignee_eq_filter, stageDate_eq_filter]
  simp only [List.filter_filter]
  exact List.filter_congr (fun r _ => by
    simp only [rowPasses]
    exact bool_reassoc _ _ _ _ _)

theorem optMem_mono {v : Option String} {l1 l2 : List String}
    (h : l1 ⊆ l2) (hv : optMem v l1 = true) : optMem v l2 = true := by
  cases v with
  | none => simp [optMem] at hv
  | some s =>
    simp only [optMem] at hv ⊢
    exact List.elem_iff.mpr (h (List.elem_iff.mp hv))

theorem insertByCount_perm (x : String × Nat) (l : List (String × Nat)) :
    List.Perm (insertByCount x l) (x :: l) := by
  induction l with
  | nil => exact List.Perm.refl _
  | cons y ys ih =>
    simp only [insertByCount]
    by_cases h : y.2 ≤ x.2
    · rw [if_pos h]
    · rw [if_neg h]
      exact (ih.cons y).trans (List.Perm.swap x y ys)

theorem sortByCountDesc_perm (l : List (String × Nat)) :
    List.Perm (sortByCountDesc l) l := by
  induction l with
  | nil => exact List.Perm.refl _
  | cons x xs ih =>
    exact (insertByCount_perm x (sortByCountDesc xs)).trans (ih.cons x)

theorem value_counts_sum (vals : List (Option String)) :
    ((value_counts vals).map Prod.snd).sum = (vals.filterMap id).length := by
  unfold value_counts
  have hperm := sortByCountDesc_perm
    ((vals.filterMap id).dedup.map (fun v => (v, (vals.filterMap id).count v)))
  rw [(hperm.map Prod.snd).sum_eq, List.map_map]
  exact List.sum_map_count_dedup_eq_length _

theorem filterMap_length_of_no_none {α : Type} (f : Row → Option α)
    {rows : List Row} (h : ∀ r ∈ rows, f r ≠ none) :
    (rows.filterMap f).length = rows.length := by
  induction rows with
  | nil => rfl
  | cons a t ih =>
    have ha := h a (List.mem_cons_self a t)
    cases hv : f a with
    | none => exact absurd hv ha
    | some s =>
      simp [List.filterMap_cons, hv,
        ih (fun r hr => h r (List.mem_cons_of_mem a hr))]

theorem countP_not_add_countP (l : List Row) (p : Row → Bool) :
    l.countP (fun a => !(p a)) + l.countP p = l.length := by
  rw [Nat.add_comm, List.length_eq_countP_add_countP p]
  congr 1
  exact List.countP_congr (fun a _ => by cases p a <;> simp)

/- Concrete rows, datasets and criteria for witnesses and counterexamples. -/

/-- A single closed-status row. -/
def rowClosed : Row :=
  { issueKey := "V6-1", summary := "Crash on load", issueType := some "Bug",
    status := some "Closed", priority := none, assignee := none,
    created := none, updated := none, resolved := none }

/-- A single open-status row. -/
def rowOpen : Row :=
  { issueKey := "V6-5", summary := "Slow query", issueType := some "Bug",
    status := some "Open", priority := none, assignee := none,
    created := none, updated := none, resolved := none }

/-- A row whose Issue Type cell is null. -/
def rowNullType : Row :=
  { issueKey := "V6-2", summary := "No type", issueType := none,
    status := some "Open", priority := none, assignee := none,
    created := none, updated := none, resolved := none }

/-- A dataset holding just `rowClosed`. -/
def dfOneClosed : Dataset :=
  { cols := ["Summary", "Issue key", "Issue Type", "Status"],
    rows := [rowClosed] }

/-- A dataset holding just `rowOpen`. -/
def dfOneOpen : Dataset :=
  { cols := ["Summary", "Issue key", "Issue Type", "Status"],
    rows := [rowOpen] }

/-- The all-unrestricted criteria: every selection empty, no date range. -/
def critAll : Criteria := ⟨[], [], [], [], none⟩

/-- Criteria allowing only status "Open". -/
def critOpenOnly : Criteria := ⟨[], ["Open"], [], [], none⟩

/-- Criteria allowing statuses "Open" and "Closed". -/
def critOpenClosed : Criteria := ⟨[], ["Open", "Closed"], [], [], none⟩

/- Claim theorems. -/

/-- C1: `filtered_df` is exactly the subsequence of the dataset's rows (in
original order, no row duplicated or mutated) satisfying the conjunction of
the enabled per-field predicates — issue-type, status, priority and assignee
set membership, plus the date-range predicate (`rowPasses`). -/
theorem filtered_df_conjunctive (df : Dataset) (c : Criteria) :
    filtered_df df c = df.rows.filter (rowPasses df c) ∧
    List.Sublist (filtered_df df c) df.rows := by
  refine ⟨filtered_df_eq_filter df c, ?_⟩
  rw [filtered_df_eq_filter]
  exact List.filter_sublist df.rows

/-- C2: an empty multiselect imposes no restriction — with an empty
issue-type / status / priority / assignee selection, `filtered_df` returns
the same rows as the pipeline with that constraint absent. -/
theorem empty_selection_pass_through (df : Dataset) (c : Criteria) :
    (c.selectedIssueTypes = [] → filtered_df df c = filteredNoIssueType df c) ∧
    (c.selectedStatuses = [] → filtered_df df c = filteredNoStatus df c) ∧
    (c.selectedPriorities = [] → filtered_df df c = filteredNoPriority df c) ∧
    (c.selectedAssignees = [] → filtered_df df c = filteredNoAssignee df c) := by
  refine ⟨fun h => ?_, fun h => ?_, fun h => ?_, fun h => ?_⟩
  · simp [filtered_df, filteredNoIssueType, stageIssueType, h]
  · simp [filtered_df, filteredNoStatus, stageStatus, h]
  · simp [filtered_df, filteredNoPriority, stagePriority, h]
  · simp [filtered_df, filteredNoAssignee, stageAssignee, h]

/-- Witness for C2 at a concrete dataset and the all-empty criteria. -/
theorem empty_selection_pass_through_witness :
    filtered_df dfOneClosed critAll = filteredNoIssueType dfOneClosed critAll ∧
    filtered_df dfOneClosed critAll = filteredNoStatus dfOneClosed critAll ∧
    filtered_df dfOneClosed critAll = filteredNoPriority dfOneClosed critAll ∧
    filtered_df dfOneClosed critAll = filteredNoAssignee dfOneClosed critAll :=
  ⟨(empty_selection_pass_through dfOneClosed critAll).1 rfl,
   (empty_selection_pass_through dfOneClosed critAll).2.1 rfl,
   (empty_selection_pass_through dfOneClosed critAll).2.2.1 rfl,
   (empty_selection_pass_through dfOneClosed critAll).2.2.2 rfl⟩

/-- C3 counterexample: allowed-set inclusion does not give result inclusion,
because an empty selection means "show all".  The empty status selection
keeps `rowClosed`, while its superset `["Open"]` rejects it. -/
theorem filter_monotonicity_cex :
    critAll.selectedIssueTypes ⊆ critOpenOnly.selectedIssueTypes ∧
    critAll.selectedStatuses ⊆ critOpenOnly.selectedStatuses ∧
    critAll.selectedPriorities ⊆ critOpenOnly.selectedPriorities ∧
    critAll.selectedAssignees ⊆ critOpenOnly.selectedAssignees ∧
    critAll.dateRange = critOpenOnly.dateRange ∧
    rowClosed ∈ filtered_df dfOneClosed critAll ∧
    rowClosed ∉ filtered_df dfOneClosed critOpenOnly := by
  refine ⟨List.nil_subset _, List.nil_subset _, List.nil_subset _,
    List.nil_subset _, rfl, ?_, ?_⟩ <;> decide

/-- C3 amended: filtering is monotone in the allowed sets provided
additionally that each of C1's allowed sets is empty exactly when C2's
corresponding set is (no side switches between pass-through and
restriction); the date range is the "other constraints equal" part. -/
theorem filtered_df_monotone (df : Dataset) (c1 c2 : Criteria)
    (hIT : c1.selectedIssueTypes ⊆ c2.selectedIssueTypes)
    (hITe : c1.selectedIssueTypes = [] ↔ c2.selectedIssueTypes = [])
    (hS : c1.selectedStatuses ⊆ c2.selectedStatuses)
    (hSe : c1.selectedStatuses = [] ↔ c2.selectedStatuses = [])
    (hP : c1.selectedPriorities ⊆ c2.selectedPriorities)
    (hPe : c1.selectedPriorities = [] ↔ c2.selectedPriorities = [])
    (hA : c1.selectedAssignees ⊆ c2.selectedAssignees)
    (hAe : c1.selectedAssignees = [] ↔ c2.selectedAssignees = [])
    (hD : c1.dateRange = c2.dateRange) :
    ∀ r ∈ filtered_df df c1, r ∈ filtered_df df c2 := by
  intro r hr
  rw [filtered_df_eq_filter, List.mem_filter] at hr ⊢
  refine ⟨hr.1, ?_⟩
  have hp := hr.2
  simp only [rowPasses, Bool.and_eq_true, Bool.or_eq_true] at hp ⊢
  obtain ⟨⟨⟨⟨h1, h2⟩, h3⟩, h4⟩, h5⟩ := hp
  refine ⟨⟨⟨⟨?_, ?_⟩, ?_⟩, ?_⟩, ?_⟩
  · rcases h1 with h1 | h1
    · left
      rw [List.isEmpty_iff] at h1 ⊢
      exact hITe.mp h1
    · right; exact optMem_mono hIT h1
  · rcases h2 with h2 | h2
    · left
      rw [List.isEmpty_iff] at h2 ⊢
      exact hSe.mp h2
    · right; exact optMem_mono hS h2
  · rcases h3 with h3 | h3
    · rcases h3 with h3 | h3
      · left; left; exact h3
      · left; right
        rw [List.isEmpty_iff] at h3 ⊢
        exact hPe.mp h3
    · right; exact optMem_mono hP h3
  · rcases h4 with h4 | h4
    · rcases h4 with h4 | h4
      · left; left; exact h4
      · left; right
        rw [List.isEmpty_iff] at h4 ⊢
        exact hAe.mp h4
    · right; exact optMem_mono hA h4
  · rw [← hD]; exact h5

/-- Witness for the amended C3 at concrete criteria `["Open"] ⊆
["Open", "Closed"]`. -/
theorem filtered_df_monotone_witness :
    rowOpen ∈ filtered_df dfOneOpen critOpenClosed :=
  filtered_df_monotone dfOneOpen critOpenOnly critOpenClosed
    (List.nil_subset _) Iff.rfl
    (by intro a ha
        simp only [critOpenOnly, critOpenClosed] at ha ⊢
        rw [List.mem_singleton] at ha
        subst ha
        exact List.mem_cons_self _ _)
    (by simp [critOpenOnly, critOpenClosed])
    (List.nil_subset _) Iff.rfl
    (List.nil_subset _) Iff.rfl
    rfl
    rowOpen (by decide)

/-- C4 counterexample: a null Issue Type row is silently dropped by
`value_counts` — no "unknown/blank" bucket appears, and the counts sum to 0
while the aggregated dataset has 1 row. -/
theorem value_counts_drops_null_cex :
    type_counts [rowNullType] = [] ∧
    ((type_counts [rowNullType]).map Prod.snd).sum = 0 ∧
    ([rowNullType] : List Row).length = 1 ∧
    ((type_counts [rowNullType]).map Prod.snd).sum ≠
      ([rowNullType] : List Row).length := by
  refine ⟨?_, ?_, rfl, ?_⟩ <;> decide

/-- C4 amended: categorical aggregation groups by exact field value but drops
rows with a null value (the pandas `value_counts` default) instead of
bucketing them; the bucket counts sum to the number of rows whose field is
non-null, which equals the row count exactly when the field has no nulls. -/
theorem value_counts_conservation (rows : List Row) :
    ((type_counts rows).map Prod.snd).sum
        = (rows.filterMap Row.issueType).length ∧
    ((status_counts rows).map Prod.snd).sum
        = (rows.filterMap Row.status).length ∧
    ((∀ r ∈ rows, r.issueType ≠ none) →
      ((type_counts rows).map Prod.snd).sum = rows.length) := by
  have ht : ((type_counts rows).map Prod.snd).sum
      = (rows.filterMap Row.issueType).length := by
    rw [type_counts, value_counts_sum, List.filterMap_map]
    rfl
  have hs : ((status_counts rows).map Prod.snd).sum
      = (rows.filterMap Row.status).length := by
    rw [status_counts, value_counts_sum, List.filterMap_map]
    rfl
  exact ⟨ht, hs,
    fun h => ht.trans (filterMap_length_of_no_none Row.issueType h)⟩

/-- Witness for the amended C4 on a dataset with no null Issue Type. -/
theorem value_counts_conservation_witness :
    ((type_counts [rowClosed]).map Prod.snd).sum
      = ([rowClosed] : List Row).length :=
  (value_counts_conservation [rowClosed]).2.2 (by decide)

/-- C5: a row passes the date-range constraint exactly when its chosen date
field is non-null and inside the inclusive range `[start, end]`; null-date
rows never pass while a range is active, and with no active range the date
stage is absent (null dates are not excluded by it). -/
theorem date_range_semantics (df : Dataset) (c : Criteria) :
    (∀ (s e : Int) (d : Option Int),
        datePass d s e = true ↔ ∃ t, d = some t ∧ s ≤ t ∧ t ≤ e) ∧
    (∀ s e : Int, datePass none s e = false) ∧
    (∀ (dc : DateColumn) (s e : Int), dateCol df = some dc →
        c.dateRange = some (s, e) →
        ∀ r ∈ filtered_df df c,
          ∃ t, getDate dc r = some t ∧ s ≤ t ∧ t ≤ e) ∧
    (c.dateRange = none → filtered_df df c = filteredNoDate df c) := by
  refine ⟨?_, fun s e => rfl, ?_, fun h => ?_⟩
  · intro s e d
    cases d with
    | none => simp [datePass]
    | some t => simp [datePass]
  · intro dc s e hdc hdr r hr
    rw [filtered_df_eq_filter, List.mem_filter] at hr
    have h5 := (Bool.and_eq_true _ _ |>.mp hr.2).2
    simp only [hdc, hdr] at h5
    cases hgd : getDate dc r with
    | none => rw [hgd] at h5; simp [datePass] at h5
    | some t =>
      rw [hgd] at h5
      simp only [datePass, Bool.and_eq_true, decide_eq_true_eq] at h5
      exact ⟨t, rfl, h5.1, h5.2⟩
  · cases hdc : dateCol df <;>
      simp [filtered_df, filteredNoDate, stageDate, h, hdc]

/-- C6: the pipeline fails, naming exactly the missing columns, if and only
if a required column (`Summary`, `Issue key`, `Issue Type`, `Status`) is
absent; missing optional columns never appear among the reported names; a
failure yields no output while a complete header yields the render. -/
theorem missing_required_blocks (raw : RawTable) (c : Criteria) (now : Int) :
    ((∃ m, runPipeline raw c now = Except.error m) ↔
      ∃ col ∈ required_cols, ¬ raw.cols.contains col = true) ∧
    (∀ m, runPipeline raw c now = Except.error m → m = missingCols raw.cols) ∧
    (∀ col ∈ ["Priority", "Assignee", "Created", "Updated", "Resolved"],
      col ∉ missingCols raw.cols) ∧
    (missingCols raw.cols = [] →
      runPipeline raw c now = Except.ok (render (load_data raw) c now)) := by
  refine ⟨⟨?_, ?_⟩, ?_, ?_, fun h => ?_⟩
  · rintro ⟨m, hm⟩
    by_cases hemp : (missingCols raw.cols).isEmpty
    · simp [runPipeline, load_data, hemp] at hm
    · have hne : missingCols raw.cols ≠ [] := by
        simpa [List.isEmpty_iff] using hemp
      rcases List.exists_mem_of_ne_nil _ hne with ⟨col, hcolmem⟩
      rcases List.mem_filter.mp hcolmem with ⟨hreq, hpred⟩
      exact ⟨col, hreq, by simpa using hpred⟩
  · rintro ⟨col, hreq, hcon⟩
    have hmem : col ∈ missingCols raw.cols :=
      List.mem_filter.mpr ⟨hreq, by simpa using hcon⟩
    have hne : ¬ (missingCols raw.cols).isEmpty = true := by
      rw [List.isEmpty_iff]
      intro hnil
      rw [hnil] at hmem
      exact absurd hmem (List.not_mem_nil col)
    exact ⟨missingCols raw.cols, by simp [runPipeline, load_data, hne]⟩
  · intro m hm
    by_cases hemp : (missingCols raw.cols).isEmpty
    · simp [runPipeline, load_data, hemp] at hm
    · simp [runPipeline, load_data, hemp] at hm
      exact hm.symm
  · intro col hopt hmiss
    have hreq : col ∈ required_cols := List.mem_of_mem_filter hmiss
    simp only [List.mem_cons, List.not_mem_nil, or_false] at hopt
    rcases hopt with rfl | rfl | rfl | rfl | rfl <;>
      exact absurd hreq (by decide)
  · have hemp : (missingCols raw.cols).isEmpty = true := by
      rw [List.isEmpty_iff]; exact h
    simp [runPipeline, load_data, hemp]

/-- A raw table whose header lacks the required `Status` column. -/
def rawMissing : RawTable :=
  { cols := ["Summary", "Issue key", "Issue Type"], rows := [] }

/-- Witness for C6: loading a header without `Status` reports an error. -/
theorem missing_required_blocks_witness :
    ∃ m, runPipeline rawMissing critAll 0 = Except.error m :=
  (missing_required_blocks rawMissing critAll 0).1.mpr
    ⟨"Status", by decide, by decide⟩

/-- C7: date parsing in the loader is total — every raw row loads to exactly
one row, each date cell goes through `parseDate` (null cell stays null), and
an unparseable value such as "not-a-date" yields `none` rather than an
error. -/
theorem load_data_total (raw : RawTable) :
    (load_data raw).rows.length = raw.rows.length ∧
    (∀ i : Nat, ((load_data raw).rows[i]?).map Row.created
        = (raw.rows[i]?).map (fun rr =>
            if raw.cols.contains "Created" then rr.created.bind parseDate
            else none)) ∧
    (∀ i : Nat, ((load_data raw).rows[i]?).map Row.resolved
        = (raw.rows[i]?).map (fun rr =>
            if raw.cols.contains "Resolved" then rr.resolved.bind parseDate
            else none)) ∧
    parseDate "not-a-date" = none := by
  refine ⟨by simp [load_data], fun i => ?_, fun i => ?_, by decide⟩
  · simp only [load_data, List.getElem?_map, Option.map_map]
    rfl
  · simp only [load_data, List.getElem?_map, Option.map_map]
    rfl

/-- A row created at 01:00 on day 0 (timestamp 3600 s). -/
def rowMorning : Row :=
  { issueKey := "V6-3", summary := "Created this morning",
    issueType := some "Bug", status := some "Open", priority := none,
    assignee := none, created := some 3600, updated := none,
    resolved := none }

/-- A dataset with a Created column holding just `rowMorning`. -/
def dfMorning : Dataset :=
  { cols := ["Summary", "Issue key", "Issue Type", "Status", "Created"],
    rows := [rowMorning] }

/-- C8 counterexample: evaluated at instant 7200 (02:00 on day 0), a row
created at 3600 (01:00 the same day) lies in the trailing 30-day window
ending at the evaluation time, yet `created_recent` — whose window ends at
`pd.Timestamp.today().normalize()`, i.e. midnight — does not count it. -/
theorem created_recent_anchor_cex :
    created_recent dfMorning 7200 = some 0 ∧
    created_recent_claim dfMorning 7200 = some 1 ∧
    created_recent dfMorning 7200 ≠ created_recent_claim dfMorning 7200 := by
  refine ⟨?_, ?_, ?_⟩ <;> decide

/-- C8 amended: the KPI counts exactly the rows whose `Created` lies in the
inclusive window `[T - 30 days, T]` where `T` is the evaluation instant
normalized to the start of its day (midnight), not the instant itself; rows
with a null or out-of-window `Created` are excluded, and the KPI is absent
("N/A") when the dataset has no `Created` column. -/
theorem created_recent_window (df : Dataset) (now : Int) :
    (df.cols.contains "Created" = true →
      created_recent df now
        = some (df.rows.countP (fun r => inRecentWindow now r.created))) ∧
    (∀ d : Option Int, inRecentWindow now d = true ↔
      ∃ t, d = some t ∧ normalizeTs now - 30 * secondsPerDay ≤ t ∧
        t ≤ normalizeTs now) ∧
    inRecentWindow now none = false ∧
    (df.cols.contains "Created" = false → created_recent df now = none) := by
  refine ⟨fun h => ?_, ?_, rfl, fun h => ?_⟩
  · rw [created_recent, if_pos h, List.countP_eq_length_filter]
  · intro d
    cases d with
    | none => simp [inRecentWindow]
    | some t => simp [inRecentWindow]
  · have hc : ¬ (df.cols.contains "Created" = true) := by
      rw [h]
      exact Bool.false_ne_true
    rw [created_recent, if_neg hc]

/-- Witness for the amended C8 on `dfMorning` at instant 7200. -/
theorem created_recent_window_witness :
    created_recent dfMorning 7200
      = some (dfMorning.rows.countP (fun r => inRecentWindow 7200 r.created)) :=
  (created_recent_window dfMorning 7200).1 (by decide)

/-- A raw row with whitespace-padded status and priority cells. -/
def rawRowPadded : RawRow :=
  { issueKey := "V6-4", summary := "Padded status", issueType := some "Bug",
    status := some " Open ", priority := some " High ", assignee := none,
    created := none, updated := none, resolved := none }

/-- A raw table holding just `rawRowPadded`. -/
def rawPadded : RawTable :=
  { cols := ["Summary", "Issue key", "Issue Type", "Status", "Priority"],
    rows := [rawRowPadded] }

/-- C9 counterexample: the loader keeps the padded `" Open "` status
verbatim — the stored value still begins with a whitespace character, so no
surrounding-whitespace trimming happened at load time. -/
theorem loader_no_trim_cex :
    (load_data rawPadded).rows.map Row.status = [some " Open "] ∧
    (" Open ").data.head? = some ' ' ∧
    (' ').isWhitespace = true ∧
    (load_data rawPadded).rows.map Row.status ≠ [some "Open"] := by
  refine ⟨rfl, ?_, ?_, ?_⟩ <;> decide

/-- C9 amended: the loader passes the status, priority and assignee fields
through verbatim (no whitespace trimming); trimming together with
lowercasing is applied only by `normalize_status`, which feeds the KPI
block, never the stored dataset. -/
theorem loader_preserves_categoricals (raw : RawTable) :
    (load_data raw).rows.map Row.status = raw.rows.map RawRow.status ∧
    (load_data raw).rows.map Row.priority = raw.rows.map RawRow.priority ∧
    (load_data raw).rows.map Row.assignee = raw.rows.map RawRow.assignee ∧
    ∀ s : String, normalize_status (some s) = s.trim.toLower := by
  refine ⟨?_, ?_, ?_, fun s => rfl⟩ <;>
    · simp only [load_data, List.map_map]
      rfl

/-- C10: the four KPIs are computed from the unfiltered dataset — they are
identical under any two filter criteria; a row counts as closed exactly when
its trimmed, lowercased status is "closed", "done" or "resolved"; and
open + closed = total. -/
theorem kpis_filter_independent (df : Dataset) (c1 c2 : Criteria) (now : Int) :
    (render df c1 now).kpiTotal = (render df c2 now).kpiTotal ∧
    (render df c1 now).kpiOpen = (render df c2 now).kpiOpen ∧
    (render df c1 now).kpiClosed = (render df c2 now).kpiClosed ∧
    (render df c1 now).kpiCreatedRecent = (render df c2 now).kpiCreatedRecent ∧
    (∀ r : Row, is_closed r = true ↔
      (normalize_status r.status = "closed" ∨
        normalize_status r.status = "done" ∨
        normalize_status r.status = "resolved")) ∧
    (render df c1 now).kpiOpen + (render df c1 now).kpiClosed
      = (render df c1 now).kpiTotal := by
  refine ⟨rfl, rfl, rfl, rfl, ?_, ?_⟩
  · intro r
    rw [is_closed, List.elem_iff]
    simp [closedStatuses]
  · exact countP_not_add_countP df.rows is_closed

/-- Witness for C10 at a concrete dataset and two different criteria. -/
theorem kpis_filter_independent_witness :
    (render dfOneClosed critAll 0).kpiTotal
        = (render dfOneClosed critOpenOnly 0).kpiTotal ∧
    (render dfOneClosed critAll 0).kpiOpen
        + (render dfOneClosed critAll 0).kpiClosed
      = (render dfOneClosed critAll 0).kpiTotal :=
  ⟨(kpis_filter_independent dfOneClosed critAll critOpenOnly 0).1,
   (kpis_filter_independent dfOneClosed critAll critOpenOnly 0).2.2.2.2.2⟩

/-- Criteria whose only active constraint is the date range [0, 7200]. -/
def critDateRange : Criteria := ⟨[], [], [], [], some (0, 7200)⟩

/-- Witness for C5: a row surviving an active `Created` range filter has a
non-null `Created` inside the inclusive range. -/
theorem date_range_semantics_witness :
    ∃ t, getDate DateColumn.created rowMorning = some t ∧
      (0 : Int) ≤ t ∧ t ≤ 7200 :=
  (date_range_semantics dfMorning critDateRange).2.2.1 DateColumn.created 0 7200
    (by decide) rfl rowMorning (by decide)
